import Mathlib

set_option maxRecDepth 40000

/-!
Verification development for the AI mock-interview platform.

This file gives a shallow embedding, in Lean 4, of the deterministic core of
the platform: the proctoring session monitor (ai_modules/proctoring/__init__.py),
the answer evaluator (ai_modules/nlp/answer_evaluator.py), the question
generator (ai_modules/nlp/question_generator.py) and the interview agent
(ai_modules/agent/agent_state.py, ai_modules/agent/interview_agent.py).

Modelling conventions:
- Python floats are modelled by exact rationals.  Python round(x, n) is
  modelled by rounding half away from zero at n decimals; Python rounds
  half to even, but no statement proved below depends on behaviour at an
  exact decimal-tie point.
- Timestamps, logging, base64 screenshots and database handles carry no
  information used by any property below and are omitted from the records.
- External ML collaborators (face detection, face mesh, NLTK tokenizers,
  random samplers) are inputs of the embedded functions: a frame comes with
  its detector outputs, the evaluator takes a tokenizer record, the
  question generator takes the sampling function.
-/

namespace MockInterview

/-- Rounding at n decimal digits, modelling Python round(x, n) (see the
module docstring for the tie convention). -/
def pyRound (n : ℕ) (x : ℚ) : ℚ :=
  (round (x * (10 : ℚ) ^ n) : ℤ) / (10 : ℚ) ^ n

/-! ## Proctoring monitor (src/ai_modules/proctoring/__init__.py) -/

/-- ViolationType enum. -/
inductive ViolationType
  | no_face
  | multiple_faces
  | face_not_centered
  | looking_away
  | different_person
  | face_obscured
  | tab_switch
  | window_blur
  | suspicious_audio
deriving DecidableEq, Repr

/-- SeverityLevel enum. -/
inductive SeverityLevel
  | low
  | medium
  | high
  | critical
deriving DecidableEq, Repr

/-- Violation record (timestamp and screenshot omitted). -/
structure Violation where
  type : ViolationType
  severity : SeverityLevel
  confidence : ℚ
  details : String
  frame_number : Option ℕ := none
deriving DecidableEq, Repr

/-- ProctorSession dataclass (reference face encoding and start time are
not used by any property below and are omitted). -/
structure ProctorSession where
  session_id : String
  user_id : ℤ
  interview_id : ℤ
  violations : List Violation := []
  frame_count : ℕ := 0
  face_visible_frames : ℕ := 0
  looking_away_frames : ℕ := 0
  no_face_threshold : ℕ := 30
  looking_away_threshold : ℕ := 20
deriving DecidableEq, Repr

/-- ProctorSession.get_face_visibility_ratio. -/
def ProctorSession.get_face_visibility_ratio (s : ProctorSession) : ℚ :=
  if s.frame_count = 0 then 0
  else ((s.face_visible_frames : ℚ) / (s.frame_count : ℚ)) * 100

/-- ProctorSession.get_attention_ratio.  Note the clamp at 0: Python
computes max(0, (face_visible - looking_away) / frame_count * 100). -/
def ProctorSession.get_attention_ratio (s : ProctorSession) : ℚ :=
  if s.frame_count = 0 then 0
  else max 0 ((((s.face_visible_frames : ℚ) - (s.looking_away_frames : ℚ)) / (s.frame_count : ℚ)) * 100)

/-- Sensitivity-dependent thresholds of AntiCheatMonitor
(_configure_sensitivity). -/
structure MonitorConfig where
  face_confidence_threshold : ℚ
  gaze_threshold : ℚ
  head_pose_threshold : ℚ
  no_face_frames_threshold : ℕ
  looking_away_frames_threshold : ℕ
  verification_threshold : ℚ
deriving DecidableEq, Repr

/-- AntiCheatMonitor._configure_sensitivity. -/
def configure_sensitivity (sensitivity : String) : MonitorConfig :=
  if sensitivity = "low" then
    { face_confidence_threshold := 7/10, gaze_threshold := 35, head_pose_threshold := 40,
      no_face_frames_threshold := 60, looking_away_frames_threshold := 45,
      verification_threshold := 1/2 }
  else if sensitivity = "high" then
    { face_confidence_threshold := 1/2, gaze_threshold := 20, head_pose_threshold := 25,
      no_face_frames_threshold := 15, looking_away_frames_threshold := 10,
      verification_threshold := 7/10 }
  else
    { face_confidence_threshold := 3/5, gaze_threshold := 25, head_pose_threshold := 30,
      no_face_frames_threshold := 30, looking_away_frames_threshold := 20,
      verification_threshold := 3/5 }

/-- AntiCheatMonitor.start_session (reference image path omitted: it only
fills the unused reference encoding). -/
def start_session (m : MonitorConfig) (session_id : String) (user_id interview_id : ℤ) :
    ProctorSession :=
  { session_id := session_id, user_id := user_id, interview_id := interview_id,
    no_face_threshold := m.no_face_frames_threshold,
    looking_away_threshold := m.looking_away_frames_threshold }

/-- Head pose as returned by _estimate_head_pose (degrees). -/
structure HeadPose where
  yaw : ℚ
  pitch : ℚ
  roll : ℚ
deriving DecidableEq, Repr

/-- Face-mesh derived observation for one frame: the head pose and the
averaged iris position (the unrounded avg_gaze of _estimate_gaze). -/
structure MeshData where
  head_pose : HeadPose
  gaze_horizontal : ℚ
deriving DecidableEq, Repr

/-- Detector outputs for one frame.  face_count is the number of faces the
face detector returned; mesh is the face-mesh result when landmarks were
found.  The bounding box is omitted: centering produces only a non-state
alert. -/
structure FrameData where
  face_count : ℕ
  mesh : Option MeshData
deriving DecidableEq, Repr

/-- Gaze direction computed by _estimate_gaze from the averaged iris
position: left below 0.35, right above 0.65, otherwise center. -/
def gaze_direction (avg_gaze : ℚ) : String :=
  if avg_gaze < 7/20 then "left"
  else if avg_gaze > 13/20 then "right"
  else "center"

/-- AntiCheatMonitor._is_looking_away.  The horizontal value the source
reads back from the gaze dict is round(avg_gaze, 3). -/
def is_looking_away (m : MonitorConfig) (md : MeshData) : Bool :=
  if |md.head_pose.yaw| > m.head_pose_threshold ∨ |md.head_pose.pitch| > m.head_pose_threshold then
    true
  else if (gaze_direction md.gaze_horizontal = "left" ∨ gaze_direction md.gaze_horizontal = "right")
      ∧ (pyRound 3 md.gaze_horizontal < 1/4 ∨ pyRound 3 md.gaze_horizontal > 3/4) then
    true
  else
    false

/-- Per-frame result of analyze_frame (the fields that carry state-relevant
information; alerts and the raw pose/gaze echoes are omitted). -/
structure AnalyzeResult where
  frame_number : ℕ
  face_detected : Bool
  face_count : ℕ
  looking_at_screen : Bool
  violations : List Violation
deriving DecidableEq, Repr

/-- AntiCheatMonitor.analyze_frame on one session (the dictionary lookup by
session id is factored out; person verification is guarded by the
check_person flag and an existing reference encoding, neither of which is
exercised by any property below, so that branch is omitted). -/
def analyze_frame (m : MonitorConfig) (s0 : ProctorSession) (f : FrameData) :
    ProctorSession × AnalyzeResult :=
  let s1 : ProctorSession := { s0 with frame_count := s0.frame_count + 1 }
  let faceDetected : Bool := decide (0 < f.face_count)
  let s2 : ProctorSession :=
    if faceDetected then { s1 with face_visible_frames := s1.face_visible_frames + 1 } else s1
  let multiViol : List Violation :=
    if faceDetected ∧ 1 < f.face_count then
      [{ type := ViolationType.multiple_faces, severity := SeverityLevel.high,
         confidence := 19/20, details := "Multiple faces detected",
         frame_number := some s1.frame_count }]
    else []
  let noFaceViol : List Violation :=
    if ¬ faceDetected ∧ (s2.frame_count : ℤ) - (s2.face_visible_frames : ℤ) > (s2.no_face_threshold : ℤ) then
      [{ type := ViolationType.no_face, severity := SeverityLevel.medium,
         confidence := 9/10, details := "Face not visible for extended period",
         frame_number := some s2.frame_count }]
    else []
  match f.mesh with
  | none =>
      let s3 : ProctorSession := { s2 with violations := s2.violations ++ multiViol ++ noFaceViol }
      (s3, { frame_number := s3.frame_count, face_detected := faceDetected,
             face_count := f.face_count, looking_at_screen := true,
             violations := multiViol ++ noFaceViol })
  | some md =>
      let away : Bool := is_looking_away m md
      if away then
        let s3 : ProctorSession := { s2 with looking_away_frames := s2.looking_away_frames + 1 }
        let lookViol : List Violation :=
          if s3.looking_away_frames > s3.looking_away_threshold then
            [{ type := ViolationType.looking_away, severity := SeverityLevel.low,
               confidence := 17/20, details := "User looking away",
               frame_number := some s3.frame_count }]
          else []
        let s4 : ProctorSession :=
          { s3 with violations := s3.violations ++ multiViol ++ noFaceViol ++ lookViol }
        (s4, { frame_number := s4.frame_count, face_detected := faceDetected,
               face_count := f.face_count, looking_at_screen := false,
               violations := multiViol ++ noFaceViol ++ lookViol })
      else
        let s3 : ProctorSession :=
          { s2 with looking_away_frames := 0,
                    violations := s2.violations ++ multiViol ++ noFaceViol }
        (s3, { frame_number := s3.frame_count, face_detected := faceDetected,
               face_count := f.face_count, looking_at_screen := true,
               violations := multiViol ++ noFaceViol })

/-- Per-violation deduction of _calculate_integrity_score: 20 critical,
10 high, 5 medium, 2 low. -/
def violation_deduction (v : Violation) : ℚ :=
  match v.severity with
  | SeverityLevel.critical => 20
  | SeverityLevel.high => 10
  | SeverityLevel.medium => 5
  | SeverityLevel.low => 2

/-- AntiCheatMonitor._calculate_integrity_score. -/
def calculate_integrity_score (s : ProctorSession) : ℚ :=
  let score : ℚ := 100
  let visibility := s.get_face_visibility_ratio
  let score := if visibility < 95 then score - (95 - visibility) * (1/2) else score
  let attention := s.get_attention_ratio
  let score := if attention < 90 then score - (90 - attention) * (3/10) else score
  let score := score - (s.violations.map violation_deduction).sum
  max 0 (min 100 score)

/-- The attention ratio as the claim words it: no lower clamp, only the
frame_count = 0 guard.  Stated from the spec for comparison with
ProctorSession.get_attention_ratio. -/
def claim_attention_ratio (s : ProctorSession) : ℚ :=
  if s.frame_count = 0 then 0
  else (((s.face_visible_frames : ℚ) - (s.looking_away_frames : ℚ)) / (s.frame_count : ℚ)) * 100

/-- The integrity formula as the claim words it, using the unclamped
attention ratio.  Stated from the spec for comparison with
calculate_integrity_score. -/
def claim_integrity (s : ProctorSession) : ℚ :=
  max 0 (min 100
    (100 - max 0 (95 - s.get_face_visibility_ratio) * (1/2)
         - max 0 (90 - claim_attention_ratio s) * (3/10)
         - (s.violations.map violation_deduction).sum))

/-! ## Answer evaluator (src/ai_modules/nlp/answer_evaluator.py) -/

/-- Python str.split(): split on whitespace, dropping empty pieces. -/
def pySplit (s : String) : List String :=
  (s.split Char.isWhitespace).filter (fun w => w ≠ "")

/-- Python substring membership, pat in s, for a non-empty pattern. -/
def strContains (s pat : String) : Bool :=
  decide (1 < (s.splitOn pat).length)

/-- The NLTK collaborators the evaluator is constructed with: word and
sentence tokenizers and the English stop-word list. -/
structure Tokenizer where
  word_tokenize : String → List String
  sent_tokenize : String → List String
  stopwords : List String

/-- Concrete stand-in tokenizer used for witnesses: whitespace word
tokenization, the whole text as one sentence, no stop words. -/
def simpleTokenizer : Tokenizer :=
  { word_tokenize := pySplit,
    sent_tokenize := fun s => if s = "" then [] else [s],
    stopwords := [] }

/-- example_indicators list of _calculate_content_score. -/
def example_indicators : List String :=
  ["for example", "for instance", "such as", "like", "specifically"]

/-- Average word length over answer.split(), 0 for a blank answer. -/
def avg_word_length (answer : String) : ℚ :=
  let words := pySplit answer
  if words = [] then 0
  else ((words.map String.length).sum : ℚ) / (words.length : ℚ)

/-- AnswerEvaluator._calculate_content_score. -/
def calculate_content_score (answer : String) (word_count sentence_count : ℕ) : ℚ :=
  let lengthScore : ℚ :=
    if word_count < 20 then ((word_count : ℚ) / 20) * 20
    else if word_count < 50 then 20 + (((word_count : ℚ) - 20) / 30) * 10
    else if word_count < 100 then 30 + (((word_count : ℚ) - 50) / 50) * 10
    else 40
  let structureScore : ℚ :=
    if 3 ≤ sentence_count then 15
    else if 2 ≤ sentence_count then 10
    else 5
  let exampleScore : ℚ :=
    if example_indicators.any (fun ind => strContains answer.toLower ind) then 15 else 0
  let complexityScore : ℚ :=
    if 5 < avg_word_length answer then 15
    else if 4 < avg_word_length answer then 10
    else 5
  min (lengthScore + structureScore + exampleScore + complexityScore) 100

/-- AnswerEvaluator._calculate_relevance_score.  Python sets of tokens are
modelled as deduplicated lists. -/
def calculate_relevance_score (tk : Tokenizer) (question answer : String)
    (expected_keywords : List String) : ℚ :=
  let question_keywords :=
    ((tk.word_tokenize question.toLower).dedup).filter (fun w => w ∉ tk.stopwords)
  let answer_keywords :=
    ((tk.word_tokenize answer.toLower).dedup).filter (fun w => w ∉ tk.stopwords)
  let overlapScore : ℚ :=
    if question_keywords = [] then 0
    else (((question_keywords.filter (fun w => w ∈ answer_keywords)).length : ℚ)
            / (question_keywords.length : ℚ)) * 50
  let keywordScore : ℚ :=
    if expected_keywords = [] then 25
    else (((expected_keywords.filter
              (fun k => strContains answer.toLower k.toLower)).length : ℚ)
            / (expected_keywords.length : ℚ)) * 50
  min (overlapScore + keywordScore) 100

/-- Result of AnswerEvaluator._analyze_keywords. -/
structure KeywordAnalysis where
  found : List String
  missing : List String
  score : ℚ
deriving DecidableEq, Repr

/-- AnswerEvaluator._analyze_keywords. -/
def analyze_keywords (answer : String) (expected_keywords : List String) : KeywordAnalysis :=
  if expected_keywords = [] then { found := [], missing := [], score := 0 }
  else
    let found := expected_keywords.filter (fun k => strContains answer.toLower k.toLower)
    let missing := expected_keywords.filter (fun k => ¬ strContains answer.toLower k.toLower)
    { found := found, missing := missing,
      score := ((found.length : ℚ) / (expected_keywords.length : ℚ)) * 100 }

/-- positive_words list of _analyze_sentiment. -/
def positive_words : List String :=
  ["good", "great", "excellent", "successful", "achieved", "improved",
   "effective", "efficient", "productive", "positive", "satisfied"]

/-- negative_words list of _analyze_sentiment. -/
def negative_words : List String :=
  ["bad", "poor", "failed", "difficult", "challenging", "problem",
   "issue", "struggled", "negative", "unfortunately"]

/-- AnswerEvaluator._analyze_sentiment. -/
def analyze_sentiment (tk : Tokenizer) (answer : String) : String :=
  let tokens := tk.word_tokenize answer.toLower
  let positive_count := (tokens.filter (fun w => w ∈ positive_words)).length
  let negative_count := (tokens.filter (fun w => w ∈ negative_words)).length
  if negative_count < positive_count then "positive"
  else if positive_count < negative_count then "negative"
  else "neutral"

/-- Transition-word list of _calculate_coherence. -/
def transition_words : List String :=
  ["however", "therefore", "furthermore", "moreover", "additionally",
   "consequently", "nevertheless", "meanwhile", "subsequently", "thus",
   "first", "second", "finally", "also", "because", "since"]

/-- AnswerEvaluator._calculate_coherence. -/
def calculate_coherence (tk : Tokenizer) (answer : String) : ℚ :=
  let sentences := tk.sent_tokenize answer
  if sentences.length < 2 then 60
  else
    let transition_count :=
      (transition_words.filter (fun t => strContains answer.toLower t)).length
    let score : ℚ :=
      70 + (if 2 ≤ transition_count then 20 else if transition_count = 1 then 10 else 0)
    let sentence_lengths := sentences.map (fun s => ((tk.word_tokenize s).length : ℚ))
    let score :=
      if 1 < sentence_lengths.length then
        let avg := sentence_lengths.sum / (sentence_lengths.length : ℚ)
        let variance :=
          (sentence_lengths.map (fun l => (l - avg) ^ 2)).sum / (sentence_lengths.length : ℚ)
        if variance < 100 then score + 10 else score
      else score
    min score 100

/-- AnswerEvaluator._generate_feedback. -/
def generate_feedback (content_score relevance_score coherence_score : ℚ)
    (word_count : ℕ) (keyword_missing : List String) : String :=
  let overall := (content_score + relevance_score + coherence_score) / 3
  let parts : List String :=
    (if 80 ≤ overall then ["Excellent answer!"]
     else if 60 ≤ overall then ["Good answer with room for improvement."]
     else ["Your answer needs significant improvement."])
    ++ (if content_score < 60 then
          if word_count < 30 then
            ["Your answer is too brief. Provide more details and examples."]
          else
            ["Try to structure your answer better with clear examples."]
        else [])
    ++ (if relevance_score < 60 then
          ["Make sure to directly address the question asked."]
          ++ (if keyword_missing ≠ [] then
                ["Consider discussing: " ++ String.intercalate ", " (keyword_missing.take 3)]
              else [])
        else [])
    ++ (if coherence_score < 70 then
          ["Work on connecting your thoughts more smoothly using transition words."]
        else [])
  String.intercalate " " parts

/-- AnswerEvaluator._generate_suggestions. -/
def generate_suggestions (content_score relevance_score : ℚ)
    (keyword_missing : List String) (question_type : String) : List String :=
  let suggestions : List String :=
    (if content_score < 70 then
      ["Provide more specific examples from your experience",
       "Elaborate on your thought process and reasoning"]
     else [])
    ++ (if relevance_score < 70 then
          ["Ensure you directly answer the question"]
          ++ (if keyword_missing ≠ [] then
                ["Include key concepts like: " ++ String.intercalate ", " (keyword_missing.take 2)]
              else [])
        else [])
    ++ (if question_type = "behavioral" then
          ["Use the STAR method: Situation, Task, Action, Result"]
        else if question_type = "technical" then
          ["Include technical details and explain your reasoning",
           "Discuss trade-offs and alternative approaches"]
        else if question_type = "situational" then
          ["Describe the context clearly",
           "Explain the impact of your actions"]
        else [])
  suggestions.take 5

/-- The record AnswerEvaluator.evaluate_answer returns.  The short-answer
response omits the keywords_missing, coherence and sentence-length entries
of nlp_analysis; these take the neutral defaults 0 / [] here. -/
structure Evaluation where
  content_score : ℚ
  relevance_score : ℚ
  word_count : ℕ
  sentence_count : ℕ
  keywords_found : List String
  keywords_missing : List String := []
  sentiment : String
  coherence_score : ℚ := 0
  avg_sentence_length : ℚ := 0
  feedback : String
  suggestions : List String
deriving DecidableEq, Repr

/-- AnswerEvaluator.evaluate_answer.  The guard mirrors the source: the
answer is falsy (empty) or its stripped character length is below 10. -/
def evaluate_answer (tk : Tokenizer) (question answer : String)
    (expected_keywords : List String) (question_type : String) : Evaluation :=
  if answer = "" ∨ answer.trim.length < 10 then
    { content_score := 0, relevance_score := 0,
      word_count := 0, sentence_count := 0,
      keywords_found := [], sentiment := "neutral",
      feedback := "Answer is too short. Please provide a more detailed response.",
      suggestions := ["Provide more details and examples", "Explain your thought process"] }
  else
    let word_count := (tk.word_tokenize answer).length
    let sentence_count := (tk.sent_tokenize answer).length
    let content_score := calculate_content_score answer word_count sentence_count
    let relevance_score := calculate_relevance_score tk question answer expected_keywords
    let keyword_analysis := analyze_keywords answer expected_keywords
    let sentiment := analyze_sentiment tk answer
    let coherence_score := calculate_coherence tk answer
    { content_score := pyRound 2 content_score,
      relevance_score := pyRound 2 relevance_score,
      word_count := word_count, sentence_count := sentence_count,
      keywords_found := keyword_analysis.found,
      keywords_missing := keyword_analysis.missing,
      sentiment := sentiment,
      coherence_score := pyRound 2 coherence_score,
      avg_sentence_length :=
        pyRound 2 (if 0 < sentence_count then (word_count : ℚ) / (sentence_count : ℚ) else 0),
      feedback := generate_feedback content_score relevance_score coherence_score
        word_count keyword_analysis.missing,
      suggestions := generate_suggestions content_score relevance_score
        keyword_analysis.missing question_type }

/-! ## Question generator (src/ai_modules/nlp/question_generator.py) -/

/-- One bank entry.  The general and hr banks tag no category and no
difficulty; the technical bank tags a difficulty.  Absent dict keys are
Option none. -/
structure BankQuestion where
  text : String
  qtype : String
  category : Option String := none
  difficulty : Option String := none
  keywords : List String
deriving DecidableEq, Repr

/-- question_bank["general"]["easy"]. -/
def general_easy_bank : List BankQuestion :=
  [{ text := "Tell me about yourself.", qtype := "behavioral",
     keywords := ["background", "experience", "skills"] },
   { text := "What are your greatest strengths?", qtype := "behavioral",
     keywords := ["skills", "abilities", "strengths"] },
   { text := "Why do you want to work here?", qtype := "behavioral",
     keywords := ["motivation", "company", "interest"] },
   { text := "Where do you see yourself in 5 years?", qtype := "behavioral",
     keywords := ["goals", "career", "future"] },
   { text := "What makes you a good fit for this role?", qtype := "behavioral",
     keywords := ["fit", "qualifications", "skills"] }]

/-- question_bank["general"]["medium"]. -/
def general_medium_bank : List BankQuestion :=
  [{ text := "Describe a challenging situation you faced and how you handled it.",
     qtype := "situational", keywords := ["challenge", "problem-solving", "resolution"] },
   { text := "How do you handle working under pressure?", qtype := "behavioral",
     keywords := ["stress", "pressure", "coping"] },
   { text := "Describe a time when you had to work with a difficult team member.",
     qtype := "situational", keywords := ["teamwork", "conflict", "resolution"] },
   { text := "What is your biggest weakness and how are you working on it?",
     qtype := "behavioral", keywords := ["weakness", "improvement", "self-awareness"] },
   { text := "Tell me about a time you failed and what you learned from it.",
     qtype := "situational", keywords := ["failure", "learning", "growth"] }]

/-- question_bank["general"]["hard"]. -/
def general_hard_bank : List BankQuestion :=
  [{ text := "Describe a situation where you had to make a decision with incomplete information.",
     qtype := "situational", keywords := ["decision-making", "uncertainty", "judgment"] },
   { text := "How do you prioritize when you have multiple urgent tasks?",
     qtype := "behavioral", keywords := ["prioritization", "time management", "organization"] },
   { text := "Tell me about a time you had to convince someone to see things your way.",
     qtype := "situational", keywords := ["persuasion", "communication", "influence"] }]

/-- question_bank["hr"]["easy"]. -/
def hr_easy_bank : List BankQuestion :=
  [{ text := "What attracted you to apply for this position?", qtype := "hr",
     keywords := ["motivation", "interest", "position"] },
   { text := "How would your colleagues describe you?", qtype := "hr",
     keywords := ["personality", "teamwork", "perception"] },
   { text := "What do you know about our company?", qtype := "hr",
     keywords := ["research", "company", "knowledge"] },
   { text := "What are your salary expectations?", qtype := "hr",
     keywords := ["salary", "compensation", "expectations"] }]

/-- question_bank["hr"]["medium"]. -/
def hr_medium_bank : List BankQuestion :=
  [{ text := "Why are you leaving your current job?", qtype := "hr",
     keywords := ["career change", "motivation", "growth"] },
   { text := "How do you handle feedback and criticism?", qtype := "hr",
     keywords := ["feedback", "growth mindset", "adaptation"] },
   { text := "Describe your ideal work environment.", qtype := "hr",
     keywords := ["environment", "culture", "preferences"] },
   { text := "What are your long-term career goals?", qtype := "hr",
     keywords := ["career", "goals", "ambition"] },
   { text := "How do you maintain work-life balance?", qtype := "hr",
     keywords := ["balance", "well-being", "management"] }]

/-- question_bank["hr"]["hard"]. -/
def hr_hard_bank : List BankQuestion :=
  [{ text := "Tell me about a time you disagreed with management and how you handled it.",
     qtype := "hr", keywords := ["conflict", "management", "communication"] },
   { text := "How would you handle an ethical dilemma at work?", qtype := "hr",
     keywords := ["ethics", "integrity", "decision-making"] },
   { text := "What would you do if you were asked to work on something outside your job description?",
     qtype := "hr", keywords := ["flexibility", "boundaries", "adaptation"] }]

/-- Specification of random.sample(l, k): k elements drawn from l without
replacement (the length is min k l.length because the source always passes
k already clamped by min(k, len(l))). -/
def SampleSpec (sample : List BankQuestion → ℕ → List BankQuestion) : Prop :=
  ∀ l k, (sample l k).length = min k l.length ∧ ∀ q ∈ sample l k, q ∈ l

/-- Deterministic sampler (a prefix draw) used to witness SampleSpec. -/
def takeSample (l : List BankQuestion) (k : ℕ) : List BankQuestion :=
  l.take k

/-- QuestionGenerator._generate_general_questions, parameterized by the
random sampler.  The trailing loop stamps the requested difficulty on
every drawn question. -/
def generate_general_questions (sample : List BankQuestion → ℕ → List BankQuestion)
    (difficulty : String) : List BankQuestion :=
  let qs :=
    if difficulty = "easy" then
      sample general_easy_bank (min 3 general_easy_bank.length)
        ++ sample general_medium_bank (min 2 general_medium_bank.length)
    else if difficulty = "medium" then
      sample general_easy_bank (min 1 general_easy_bank.length)
        ++ sample general_medium_bank (min 3 general_medium_bank.length)
        ++ sample general_hard_bank (min 1 general_hard_bank.length)
    else
      sample general_medium_bank (min 2 general_medium_bank.length)
        ++ sample general_hard_bank (min 3 general_hard_bank.length)
  qs.map (fun q => { q with difficulty := some difficulty })

/-- QuestionGenerator._generate_hr_questions, parameterized by the random
sampler. -/
def generate_hr_questions (sample : List BankQuestion → ℕ → List BankQuestion)
    (difficulty : String) : List BankQuestion :=
  let qs :=
    if difficulty = "easy" then
      sample hr_easy_bank (min 3 hr_easy_bank.length)
        ++ sample hr_medium_bank (min 2 hr_medium_bank.length)
    else if difficulty = "medium" then
      sample hr_easy_bank (min 2 hr_easy_bank.length)
        ++ sample hr_medium_bank (min 2 hr_medium_bank.length)
        ++ sample hr_hard_bank (min 1 hr_hard_bank.length)
    else
      sample hr_medium_bank (min 2 hr_medium_bank.length)
        ++ sample hr_hard_bank (min 3 hr_hard_bank.length)
  qs.map (fun q => { q with difficulty := some difficulty })

/-! ## Interview agent (src/ai_modules/agent/agent_state.py,
src/ai_modules/agent/interview_agent.py) -/

/-- AgentPhase enum, in the declaration order of agent_state.py. -/
inductive AgentPhase
  | initialization
  | question_generation
  | answer_collection
  | evaluation
  | analysis
  | suggestion_generation
  | report_generation
  | completed
deriving DecidableEq, Repr

/-- Position of a phase in the init-to-completed order. -/
def AgentPhase.idx : AgentPhase → ℕ
  | AgentPhase.initialization => 0
  | AgentPhase.question_generation => 1
  | AgentPhase.answer_collection => 2
  | AgentPhase.evaluation => 3
  | AgentPhase.analysis => 4
  | AgentPhase.suggestion_generation => 5
  | AgentPhase.report_generation => 6
  | AgentPhase.completed => 7

/-- QuestionContext dataclass (asked_at omitted). -/
structure QuestionContext where
  question_id : ℤ
  question_text : String
  question_type : String
  category : String
  difficulty : String
  expected_keywords : List String
  order_number : ℤ
  answer_received : Bool := false
  answer_text : Option String := none
  evaluation_result : Option Evaluation := none
deriving DecidableEq, Repr

/-- InterviewContext dataclass.  Resume and history context, performance
snapshots and the observation/decision logs carry no information used by
any property below and are omitted; the per-category maps are
insertion-ordered association lists, like Python dicts. -/
structure InterviewContext where
  interview_id : ℤ
  user_id : ℤ
  interview_type : String
  interview_mode : String
  difficulty_level : String
  current_phase : AgentPhase := AgentPhase.initialization
  questions : List QuestionContext := []
  current_question_index : ℤ := 0
  cumulative_content_scores : List ℚ := []
  cumulative_relevance_scores : List ℚ := []
  cumulative_clarity_scores : List ℚ := []
  cumulative_fluency_scores : List ℚ := []
  cumulative_confidence_scores : List ℚ := []
  session_weak_areas : List (String × List ℚ) := []
  session_strong_areas : List (String × List ℚ) := []
deriving DecidableEq, Repr

/-- InterviewContext.get_average_score. -/
def InterviewContext.get_average_score (c : InterviewContext) (score_type : String) : ℚ :=
  let scores :=
    if score_type = "content" then c.cumulative_content_scores
    else if score_type = "relevance" then c.cumulative_relevance_scores
    else if score_type = "clarity" then c.cumulative_clarity_scores
    else if score_type = "fluency" then c.cumulative_fluency_scores
    else if score_type = "confidence" then c.cumulative_confidence_scores
    else []
  if scores = [] then 0 else scores.sum / (scores.length : ℚ)

/-- Python dict item assignment d[k] = v on an insertion-ordered
association list: replace in place when the key exists, else append. -/
def dictSet : List (ℤ × InterviewContext) → ℤ → InterviewContext →
    List (ℤ × InterviewContext)
  | [], k, v => [(k, v)]
  | p :: rest, k, v => if p.1 = k then (k, v) :: rest else p :: dictSet rest k v

/-- Python dict lookup d.get(k). -/
def dictGet (l : List (ℤ × InterviewContext)) (k : ℤ) : Option InterviewContext :=
  (l.find? (fun p => decide (p.1 = k))).map Prod.snd

/-- Python del d[k]. -/
def dictDelete (l : List (ℤ × InterviewContext)) (k : ℤ) : List (ℤ × InterviewContext) :=
  l.filter (fun p => decide (¬ p.1 = k))

/-- AgentState (agent_state.py).  Analytics counters and capability flags
are omitted; active_interviews maps user_id to context. -/
structure AgentState where
  weak_area_threshold : ℚ := 65
  strong_area_threshold : ℚ := 80
  active_interviews : List (ℤ × InterviewContext) := []
deriving DecidableEq, Repr

/-- AgentState.get_context: scan the registered contexts for one with the
given interview id. -/
def AgentState.get_context (st : AgentState) (interview_id : ℤ) : Option InterviewContext :=
  (st.active_interviews.map Prod.snd).find? (fun c => decide (c.interview_id = interview_id))

/-- AgentState.create_context: build a fresh context and register it under
the user id, silently replacing any context the user already had. -/
def AgentState.create_context (st : AgentState) (interview_id user_id : ℤ)
    (interview_type interview_mode difficulty_level : String) :
    AgentState × InterviewContext :=
  let context : InterviewContext :=
    { interview_id := interview_id, user_id := user_id,
      interview_type := interview_type, interview_mode := interview_mode,
      difficulty_level := difficulty_level }
  ({ st with active_interviews := dictSet st.active_interviews user_id context }, context)

/-- AgentState.remove_context: drop the entry keyed by the user id. -/
def AgentState.remove_context (st : AgentState) (user_id : ℤ) : AgentState :=
  { st with active_interviews := dictDelete st.active_interviews user_id }

/-- The two failure paths of the agent operations (both are raised as
ValueError in interview_agent.py; no other error kind exists there). -/
inductive AgentError
  | no_active_interview (interview_id : ℤ)
  | question_not_found (question_id : ℤ)
deriving DecidableEq, Repr

/-- In-place mutation of the first registered context carrying the given
interview id (the object process_answer and complete_interview retrieve
through get_context and then mutate). -/
def updateFoundContext : List (ℤ × InterviewContext) → ℤ →
    (InterviewContext → InterviewContext) → List (ℤ × InterviewContext)
  | [], _, _ => []
  | p :: rest, iid, f =>
      if p.2.interview_id = iid then (p.1, f p.2) :: rest
      else p :: updateFoundContext rest iid f

/-- In-place mutation of the first question matched by order number or
question id (the object process_answer finds and mutates). -/
def updateFoundQuestion : List QuestionContext → ℤ →
    (QuestionContext → QuestionContext) → List QuestionContext
  | [], _, _ => []
  | q :: rest, qid, f =>
      if q.order_number = qid ∨ q.question_id = qid then f q :: rest
      else q :: updateFoundQuestion rest qid f

/-- Append a score to a category's list in a session weak/strong area map
(the dict-of-lists update of _update_area_tracking). -/
def areaAppend (m : List (String × List ℚ)) (category : String) (score : ℚ) :
    List (String × List ℚ) :=
  if m.any (fun p => p.1 = category) then
    m.map (fun p => if p.1 = category then (p.1, p.2 ++ [score]) else p)
  else m ++ [(category, [score])]

/-- InterviewAgent._update_area_tracking. -/
def update_area_tracking (weak_threshold strong_threshold : ℚ)
    (c : InterviewContext) (q : QuestionContext) (e : Evaluation) : InterviewContext :=
  let score := (e.content_score + e.relevance_score) / 2
  if score < weak_threshold then
    { c with session_weak_areas := areaAppend c.session_weak_areas q.category score }
  else if strong_threshold ≤ score then
    { c with session_strong_areas := areaAppend c.session_strong_areas q.category score }
  else c

/-- The per-question mutation of process_answer: mark the question
answered, overwriting any earlier answer text and evaluation. -/
def answer_update (answer_text : String) (evaluation : Evaluation)
    (q : QuestionContext) : QuestionContext :=
  { q with answer_received := true, answer_text := some answer_text,
           evaluation_result := some evaluation }

/-- The in-place mutation process_answer performs on the retrieved
context: mark the found question answered (overwriting any earlier answer
and evaluation), append to the cumulative content and relevance score
sequences, update the weak/strong area tracking, and advance the current
question index. -/
def process_mutation (weak_threshold strong_threshold : ℚ) (question_id : ℤ)
    (answer_text : String) (question_context : QuestionContext)
    (evaluation : Evaluation) (c : InterviewContext) : InterviewContext :=
  let c1 := { c with
    questions := updateFoundQuestion c.questions question_id (answer_update answer_text evaluation),
    cumulative_content_scores := c.cumulative_content_scores ++ [evaluation.content_score],
    cumulative_relevance_scores := c.cumulative_relevance_scores ++ [evaluation.relevance_score] }
  let c2 := update_area_tracking weak_threshold strong_threshold c1 question_context evaluation
  { c2 with current_question_index := c2.current_question_index + 1 }

/-- Result record of process_answer (the realtime-feedback and
running-performance echoes are recomputable views and omitted). -/
structure ProcessResult where
  evaluation : Evaluation
  questions_remaining : ℕ
deriving DecidableEq, Repr

/-- InterviewAgent.process_answer (the unused audio_path and video_path
parameters are omitted; the evaluation tool call cannot fail in this
embedding).  Note: the source never consults answer_received, so a
resubmission re-evaluates, overwrites the stored answer and evaluation,
and appends to the cumulative score lists again. -/
def InterviewAgent.process_answer (tk : Tokenizer) (st : AgentState)
    (interview_id question_id : ℤ) (answer_text : String) :
    AgentState × Except AgentError ProcessResult :=
  match st.get_context interview_id with
  | none => (st, Except.error (AgentError.no_active_interview interview_id))
  | some context =>
    match context.questions.find?
        (fun q => decide (q.order_number = question_id ∨ q.question_id = question_id)) with
    | none => (st, Except.error (AgentError.question_not_found question_id))
    | some question_context =>
      let evaluation := evaluate_answer tk question_context.question_text answer_text
        question_context.expected_keywords question_context.question_type
      let newRegistry := updateFoundContext st.active_interviews interview_id
        (process_mutation st.weak_area_threshold st.strong_area_threshold
          question_id answer_text question_context evaluation)
      let st2 : AgentState := { st with active_interviews := newRegistry }
      let c4 := process_mutation st.weak_area_threshold st.strong_area_threshold
        question_id answer_text question_context evaluation context
      let result : ProcessResult :=
        { evaluation := evaluation,
          questions_remaining := (c4.questions.filter (fun q => ¬ q.answer_received)).length }
      (st2, Except.ok result)

/-- Final score block of _calculate_final_scores. -/
structure FinalScores where
  overall_score : ℚ
  content_score : ℚ
  relevance_score : ℚ
  clarity_score : ℚ
  fluency_score : ℚ
  confidence_score : ℚ
deriving DecidableEq, Repr

/-- InterviewAgent._calculate_final_scores.  The Python idiom
get_average_score(x) or 70 yields 70 both when the list is empty (average
0.0) and when a non-empty list averages to exactly 0. -/
def calculate_final_scores (c : InterviewContext) (evaluations : List Evaluation) :
    FinalScores :=
  if evaluations = [] then
    { overall_score := 0, content_score := 0, relevance_score := 0,
      clarity_score := 0, fluency_score := 0, confidence_score := 0 }
  else
    let avg_content := (evaluations.map Evaluation.content_score).sum / (evaluations.length : ℚ)
    let avg_relevance := (evaluations.map Evaluation.relevance_score).sum / (evaluations.length : ℚ)
    let combined_content := avg_content * (3/5) + avg_relevance * (2/5)
    let avg_clarity :=
      if c.get_average_score "clarity" = 0 then 70 else c.get_average_score "clarity"
    let avg_fluency :=
      if c.get_average_score "fluency" = 0 then 70 else c.get_average_score "fluency"
    let avg_confidence :=
      if c.get_average_score "confidence" = 0 then 70 else c.get_average_score "confidence"
    let overall := combined_content * (2/5)
      + ((avg_clarity + avg_fluency) / 2) * (3/10)
      + avg_confidence * (3/10)
    { overall_score := pyRound 2 overall,
      content_score := pyRound 2 combined_content,
      relevance_score := pyRound 2 avg_relevance,
      clarity_score := pyRound 2 avg_clarity,
      fluency_score := pyRound 2 avg_fluency,
      confidence_score := pyRound 2 avg_confidence }

/-- The overall-score formula exactly as the claim words it: means over
the attached evaluations, channels with no recorded scores defaulting to
70, no final rounding.  Stated from the spec for comparison with
calculate_final_scores. -/
def claim_overall (c : InterviewContext) (evaluations : List Evaluation) : ℚ :=
  let avg_content := (evaluations.map Evaluation.content_score).sum / (evaluations.length : ℚ)
  let avg_relevance := (evaluations.map Evaluation.relevance_score).sum / (evaluations.length : ℚ)
  let davg : List ℚ → ℚ := fun l => if l = [] then 70 else l.sum / (l.length : ℚ)
  (2/5) * ((3/5) * avg_content + (2/5) * avg_relevance)
    + (3/10) * ((davg c.cumulative_clarity_scores + davg c.cumulative_fluency_scores) / 2)
    + (3/10) * davg c.cumulative_confidence_scores

/-- Report record of complete_interview restricted to the fields the
properties below inspect (weak/strong areas, skill gaps, suggestions and
the learning path are pure functions of the evaluations and are not
modelled). -/
structure FinalReport where
  interview_id : ℤ
  scores : FinalScores
  total_questions : ℕ
  questions_answered : ℕ
  average_content_score : ℚ
  average_relevance_score : ℚ
deriving DecidableEq, Repr

/-- InterviewAgent.complete_interview.  The context walks through
analysis, suggestion_generation and report_generation and is left at
completed before being deregistered by user id; the intermediate phase
values are recorded by op_phase_trace below. -/
def InterviewAgent.complete_interview (st : AgentState) (interview_id : ℤ) :
    AgentState × Except AgentError FinalReport :=
  match st.get_context interview_id with
  | none => (st, Except.error (AgentError.no_active_interview interview_id))
  | some context =>
    let evaluations := context.questions.filterMap
      (fun q => if q.answer_received then q.evaluation_result else none)
    let final_scores := calculate_final_scores context evaluations
    let newRegistry := updateFoundContext st.active_interviews interview_id
      (fun c => { c with current_phase := AgentPhase.completed })
    let st2 : AgentState := { st with active_interviews := newRegistry }
    let st3 := st2.remove_context context.user_id
    let report : FinalReport :=
      { interview_id := interview_id, scores := final_scores,
        total_questions := context.questions.length,
        questions_answered := evaluations.length,
        average_content_score := context.get_average_score "content",
        average_relevance_score := context.get_average_score "relevance" }
    (st3, Except.ok report)

/-- InterviewAgent.start_interview, parameterized by the generated
question data (the output of the question-generation tool).  With no
database handle the source falls back to difficulty "medium" when none is
given. -/
def InterviewAgent.start_interview (st : AgentState) (interview_id user_id : ℤ)
    (interview_type interview_mode : String) (difficulty_level : Option String)
    (questions_data : List BankQuestion) : AgentState × InterviewContext :=
  let difficulty := difficulty_level.getD "medium"
  let stc := st.create_context interview_id user_id interview_type interview_mode difficulty
  let context := stc.2
  let qcs : List QuestionContext := questions_data.enum.map (fun iq =>
    { question_id := (iq.1 : ℤ), question_text := iq.2.text,
      question_type := iq.2.qtype, category := iq.2.category.getD "General",
      difficulty := iq.2.difficulty.getD difficulty,
      expected_keywords := iq.2.keywords, order_number := (iq.1 : ℤ) + 1 })
  let c3 : InterviewContext :=
    { context with questions := qcs, current_phase := AgentPhase.answer_collection }
  let st2 : AgentState :=
    { stc.1 with active_interviews := dictSet stc.1.active_interviews user_id c3 }
  (st2, c3)

/-- One external call into the agent. -/
inductive AgentOp
  | start (interview_id user_id : ℤ) (interview_type interview_mode : String)
      (difficulty_level : Option String) (questions_data : List BankQuestion)
  | submit (interview_id question_id : ℤ) (answer_text : String)
  | complete (interview_id : ℤ)

/-- State reached after one agent operation. -/
def apply_op (tk : Tokenizer) (st : AgentState) : AgentOp → AgentState
  | AgentOp.start iid uid it im dl qd =>
      (InterviewAgent.start_interview st iid uid it im dl qd).1
  | AgentOp.submit iid qid ans => (InterviewAgent.process_answer tk st iid qid ans).1
  | AgentOp.complete iid => (InterviewAgent.complete_interview st iid).1

/-- The successive values current_phase takes in the context an operation
touches, read off the source's assignments: start walks the fresh context
through initialization, question_generation, answer_collection;
process_answer never assigns the phase; complete_interview walks through
analysis, suggestion_generation, report_generation, completed. -/
def op_phase_trace (st : AgentState) : AgentOp → List AgentPhase
  | AgentOp.start _ _ _ _ _ _ =>
      [AgentPhase.initialization, AgentPhase.question_generation, AgentPhase.answer_collection]
  | AgentOp.submit iid _ _ =>
      match st.get_context iid with
      | none => []
      | some c => [c.current_phase]
  | AgentOp.complete iid =>
      match st.get_context iid with
      | none => []
      | some c => [c.current_phase, AgentPhase.analysis, AgentPhase.suggestion_generation,
                   AgentPhase.report_generation, AgentPhase.completed]

/-- Invariant of the agent registry between operations: every registered
context rests in the answer_collection phase (start leaves it there,
submissions do not move it, completion deregisters), and each context is
registered under its own user id. -/
def AgentInv (st : AgentState) : Prop :=
  ∀ p ∈ st.active_interviews,
    p.2.current_phase = AgentPhase.answer_collection ∧ p.2.user_id = p.1

/-! ## Concrete fixtures used by witnesses and counterexamples -/

/-- A session state in which the consecutive looking-away counter exceeds
the visible-frame count (reachable because the face-mesh branch counts
independently of the face detector). -/
def sessionC4 : ProctorSession :=
  { session_id := "s4", user_id := 1, interview_id := 1,
    frame_count := 10, face_visible_frames := 2, looking_away_frames := 5 }

/-- A session far past its no-face threshold. -/
def sessionC5 : ProctorSession :=
  { session_id := "s5", user_id := 1, interview_id := 1,
    frame_count := 5, face_visible_frames := 1,
    no_face_threshold := 1, looking_away_threshold := 2 }

/-- A frame in which the detector finds one face and the mesh finds no
landmarks. -/
def frameFaceOnly : FrameData := { face_count := 1, mesh := none }

/-- A session with a running looking-away streak. -/
def sessionC8 : ProctorSession :=
  { session_id := "s8", user_id := 1, interview_id := 1,
    frame_count := 6, face_visible_frames := 6, looking_away_frames := 5 }

/-- A mesh observation of a fully attentive user. -/
def attentiveMesh : MeshData :=
  { head_pose := { yaw := 0, pitch := 0, roll := 0 }, gaze_horizontal := 1/2 }

/-- A frame with a face and attentive mesh landmarks. -/
def frameAttentive : FrameData := { face_count := 1, mesh := some attentiveMesh }

/-- Question data for concrete agent runs. -/
def qdataDemo : BankQuestion :=
  { text := "Tell me about yourself.", qtype := "behavioral",
    keywords := ["background", "experience", "skills"] }

/-- Agent state after starting interview 1 for user 1 with one question. -/
def stStart : AgentState :=
  (InterviewAgent.start_interview {} 1 1 "general" "standard" (some "easy") [qdataDemo]).1

/-- Agent state after the first submission for question order 1. -/
def stAfterFirst : AgentState :=
  (InterviewAgent.process_answer simpleTokenizer stStart 1 1 "too short").1

/-- Agent state after completing interview 1. -/
def stAfterComplete : AgentState :=
  (InterviewAgent.complete_interview stStart 1).1

/-- A question whose answer was already received. -/
def qAnswered : QuestionContext :=
  { question_id := 0, question_text := "Q", question_type := "general",
    category := "General", difficulty := "easy", expected_keywords := [],
    order_number := 1, answer_received := true }

/-- A context holding one already-answered question. -/
def ctxAnswered : InterviewContext :=
  { interview_id := 1, user_id := 1, interview_type := "general",
    interview_mode := "standard", difficulty_level := "easy",
    current_phase := AgentPhase.answer_collection, questions := [qAnswered] }

/-- Registry holding ctxAnswered under its user id. -/
def stAnswered : AgentState := { active_interviews := [(1, ctxAnswered)] }

/-- An evaluation whose content score forces the overall mean through the
2-decimal rounding (33.33 yields an overall of 49.9992). -/
def evalC3 : Evaluation :=
  { content_score := 3333/100, relevance_score := 0, word_count := 50,
    sentence_count := 2, keywords_found := [], sentiment := "neutral",
    feedback := "", suggestions := [] }

/-- A context with no recorded clarity, fluency or confidence scores. -/
def ctxC3 : InterviewContext :=
  { interview_id := 7, user_id := 3, interview_type := "general",
    interview_mode := "standard", difficulty_level := "medium" }

/-- A resting context for registry properties. -/
def ctxC9 : InterviewContext :=
  { interview_id := 11, user_id := 4, interview_type := "hr",
    interview_mode := "standard", difficulty_level := "easy",
    current_phase := AgentPhase.answer_collection }

/-- Registry with one in-flight interview. -/
def stC9 : AgentState := { active_interviews := [(4, ctxC9)] }

end MockInterview

namespace MockInterview

/-! ## Helper lemmas -/

theorem analyze_frame_fst_looking_away (m : MonitorConfig) (s : ProctorSession)
    (f : FrameData) :
    (analyze_frame m s f).1.looking_away_frames =
      match f.mesh with
      | none => s.looking_away_frames
      | some md => if is_looking_away m md then s.looking_away_frames + 1 else 0 := by
  rcases f with ⟨fc, mesh⟩
  rcases mesh with _ | md <;> simp only [analyze_frame]
  · split <;> rfl
  · by_cases haway : is_looking_away m md = true <;> simp [haway] <;> split <;> rfl

/-! ## Claim C4: integrity score formula -/

/-- C4 counterexample: on a session where the looking-away streak exceeds
the visible-frame count, the code clamps the attention ratio at 0 before
deducting, while the claim formula deducts from the raw negative ratio:
the two disagree (35.5 against 26.5). -/
theorem integrity_claim_counterexample :
    calculate_integrity_score sessionC4 = 71/2 ∧ claim_integrity sessionC4 = 53/2 ∧
      calculate_integrity_score sessionC4 ≠ claim_integrity sessionC4 := by
  refine ⟨?_, ?_, ?_⟩ <;>
    norm_num [calculate_integrity_score, claim_integrity, claim_attention_ratio,
      ProctorSession.get_face_visibility_ratio, ProctorSession.get_attention_ratio,
      sessionC4, violation_deduction, max_def, min_def]

/-- C4 amended: the integrity score equals
clamp(100 − max(0, 95 − visibility)·0.5 − max(0, 90 − attention)·0.3 −
per-violation deductions, 0, 100), where attention is the session's
attention ratio clamped below at 0 (ProctorSession.get_attention_ratio). -/
theorem integrity_score_formula (s : ProctorSession) :
    calculate_integrity_score s =
      max 0 (min 100
        (100 - max 0 (95 - s.get_face_visibility_ratio) * (1/2)
             - max 0 (90 - s.get_attention_ratio) * (3/10)
             - (s.violations.map violation_deduction).sum)) := by
  simp only [calculate_integrity_score]
  rcases lt_or_le s.get_face_visibility_ratio 95 with h1 | h1 <;>
    rcases lt_or_le s.get_attention_ratio 90 with h2 | h2
  · rw [if_pos h1, if_pos h2,
      max_eq_right (by linarith : (0:ℚ) ≤ 95 - s.get_face_visibility_ratio),
      max_eq_right (by linarith : (0:ℚ) ≤ 90 - s.get_attention_ratio)]
  · rw [if_pos h1, if_neg (not_lt.mpr h2),
      max_eq_right (by linarith : (0:ℚ) ≤ 95 - s.get_face_visibility_ratio),
      max_eq_left (by linarith : 90 - s.get_attention_ratio ≤ 0)]
    ring_nf
  · rw [if_neg (not_lt.mpr h1), if_pos h2,
      max_eq_left (by linarith : 95 - s.get_face_visibility_ratio ≤ 0),
      max_eq_right (by linarith : (0:ℚ) ≤ 90 - s.get_attention_ratio)]
    ring_nf
  · rw [if_neg (not_lt.mpr h1), if_neg (not_lt.mpr h2),
      max_eq_left (by linarith : 95 - s.get_face_visibility_ratio ≤ 0),
      max_eq_left (by linarith : 90 - s.get_attention_ratio ≤ 0)]
    ring_nf

/-! ## Claim C5: violation emission conditions -/

/-- C5 counterexample: a frame in which a face is detected while the
accumulated no-face deficit still exceeds the threshold emits no no_face
violation, against the claimed iff. -/
theorem no_face_claim_counterexample :
    ((sessionC5.frame_count : ℤ) + 1 - ((sessionC5.face_visible_frames : ℤ) + 1)
        > (sessionC5.no_face_threshold : ℤ)) ∧
      (analyze_frame (configure_sensitivity "medium") sessionC5 frameFaceOnly).2.violations = [] := by
  refine ⟨by decide, by decide⟩

/-- C5 amended: a no_face violation (severity medium) is appended iff the
current frame has no detected face and the post-increment deficit
frame_count − face_visible_frames exceeds no_face_threshold; a
looking_away violation (severity low) is appended iff the mesh found
landmarks, the looking-away predicate holds, and the post-increment
consecutive counter exceeds looking_away_threshold. -/
theorem frame_violation_thresholds (m : MonitorConfig) (s : ProctorSession) (f : FrameData) :
    ((∃ v ∈ (analyze_frame m s f).2.violations,
        v.type = ViolationType.no_face ∧ v.severity = SeverityLevel.medium) ↔
      (f.face_count = 0 ∧
        (s.frame_count : ℤ) + 1 - (s.face_visible_frames : ℤ) > (s.no_face_threshold : ℤ)))
    ∧ ((∃ v ∈ (analyze_frame m s f).2.violations,
        v.type = ViolationType.looking_away ∧ v.severity = SeverityLevel.low) ↔
      ((∃ md, f.mesh = some md ∧ is_looking_away m md = true) ∧
        s.looking_away_frames + 1 > s.looking_away_threshold)) := by
  rcases f with ⟨fc, mesh⟩
  rcases Nat.eq_zero_or_pos fc with hfc | hfc
  · subst hfc
    rcases mesh with _ | md
    · simp only [analyze_frame]
      constructor
      · by_cases hdef : (s.frame_count : ℤ) + 1 - (s.face_visible_frames : ℤ) > (s.no_face_threshold : ℤ) <;>
          simp_all [or_and_right, and_assoc, exists_or, exists_and_left, exists_eq_left] <;> omega
      · by_cases hdef : (s.frame_count : ℤ) + 1 - (s.face_visible_frames : ℤ) > (s.no_face_threshold : ℤ) <;>
          simp_all [or_and_right, and_assoc, exists_or, exists_and_left, exists_eq_left] <;> omega
    · by_cases haway : is_looking_away m md = true
      · by_cases hcnt : s.looking_away_frames + 1 > s.looking_away_threshold <;>
          by_cases hdef : (s.frame_count : ℤ) + 1 - (s.face_visible_frames : ℤ) > (s.no_face_threshold : ℤ) <;>
          simp_all [analyze_frame, or_and_right, and_assoc, exists_or, exists_and_left, exists_eq_left] <;> omega
      · by_cases hdef : (s.frame_count : ℤ) + 1 - (s.face_visible_frames : ℤ) > (s.no_face_threshold : ℤ) <;>
          simp_all [analyze_frame, or_and_right, and_assoc, exists_or, exists_and_left, exists_eq_left] <;> omega
  · rcases mesh with _ | md
    · by_cases hmulti : 1 < fc <;> simp_all [analyze_frame, or_and_right, and_assoc, exists_or, exists_and_left, exists_eq_left] <;> omega
    · by_cases haway : is_looking_away m md = true
      · by_cases hcnt : s.looking_away_frames + 1 > s.looking_away_threshold <;>
          by_cases hmulti : 1 < fc <;> simp_all [analyze_frame, or_and_right, and_assoc, exists_or, exists_and_left, exists_eq_left] <;> omega
      · by_cases hmulti : 1 < fc <;> simp_all [analyze_frame, or_and_right, and_assoc, exists_or, exists_and_left, exists_eq_left] <;> omega

/-! ## Claim C8: looking-away counter reset and attention ratio -/

/-- C8 counterexample: on a frame where the mesh finds no landmarks the
user is reported as looking at the screen, yet the consecutive
looking-away counter persists instead of resetting to 0. -/
theorem looking_away_reset_counterexample :
    (analyze_frame (configure_sensitivity "medium") sessionC8 frameFaceOnly).2.looking_at_screen = true ∧
      (analyze_frame (configure_sensitivity "medium") sessionC8 frameFaceOnly).1.looking_away_frames = 5 := by
  refine ⟨by decide, by decide⟩

/-- C8 amended: the counter resets to 0 exactly on frames where the mesh
found landmarks and the looking-away predicate is false, and immediately
after such a frame the attention ratio equals the face-visibility ratio;
on frames without mesh landmarks the counter persists unchanged. -/
theorem looking_away_counter_reset (m : MonitorConfig) (s : ProctorSession) (f : FrameData) :
    (f.mesh = none →
      (analyze_frame m s f).1.looking_away_frames = s.looking_away_frames)
    ∧ (∀ md, f.mesh = some md → is_looking_away m md = false →
        (analyze_frame m s f).1.looking_away_frames = 0 ∧
          (analyze_frame m s f).1.get_attention_ratio =
            (analyze_frame m s f).1.get_face_visibility_ratio) := by
  constructor
  · intro hnone
    rw [analyze_frame_fst_looking_away, hnone]
  · intro md hmd haway
    have hcnt : (analyze_frame m s f).1.looking_away_frames = 0 := by
      rw [analyze_frame_fst_looking_away, hmd]
      simp [haway]
    refine ⟨hcnt, ?_⟩
    have hfr : (analyze_frame m s f).1.frame_count = s.frame_count + 1 := by
      rcases f with ⟨fc, mesh⟩
      cases hmd
      by_cases h2 : is_looking_away m md = true <;> simp [analyze_frame, h2] <;> split <;> rfl
    rw [ProctorSession.get_attention_ratio, ProctorSession.get_face_visibility_ratio, hcnt, hfr]
    have hpos : ((s.frame_count + 1 : ℕ) : ℚ) > 0 := by positivity
    simp only [Nat.add_eq_zero, and_false, if_false, Nat.cast_zero, sub_zero,
      Nat.succ_ne_zero, if_neg (Nat.succ_ne_zero s.frame_count)]
    exact max_eq_right (by positivity)

/-! ## Claim C6: short-answer short-circuit -/

/-- C6 counterexample: the answer has word count 3 (below 10) but 21
characters, so the claimed word-count short-circuit does not happen: the
evaluator runs the full analysis and returns a non-zero content score. -/
theorem short_circuit_claim_counterexample :
    (simpleTokenizer.word_tokenize "hello wonderful world").length < 10 ∧
      ¬ "hello wonderful world" = "" ∧
      (evaluate_answer simpleTokenizer "Tell me about yourself."
        "hello wonderful world" [] "general").content_score ≠ 0 := by
  refine ⟨by with_unfolding_all decide, by decide, by with_unfolding_all decide⟩

/-- C6 amended: the short-circuit triggers on an empty answer or one whose
stripped character length is below 10 (not its word count), and then
returns the fixed zero-score record with the fixed feedback and the two
fixed suggestions, with no keyword, sentiment or coherence analysis. -/
theorem short_answer_short_circuit (tk : Tokenizer) (question answer : String)
    (kws : List String) (qt : String)
    (h : answer = "" ∨ answer.trim.length < 10) :
    evaluate_answer tk question answer kws qt =
      { content_score := 0, relevance_score := 0, word_count := 0, sentence_count := 0,
        keywords_found := [], keywords_missing := [], sentiment := "neutral",
        coherence_score := 0, avg_sentence_length := 0,
        feedback := "Answer is too short. Please provide a more detailed response.",
        suggestions := ["Provide more details and examples", "Explain your thought process"] } := by
  rw [evaluate_answer, if_pos h]

/-- C6 witness: the guard holds for a 9-character answer and the theorem
returns the fixed short-answer record. -/
theorem short_answer_short_circuit_witness :
    evaluate_answer simpleTokenizer "Why this role?" "too short" [] "general" =
      { content_score := 0, relevance_score := 0, word_count := 0, sentence_count := 0,
        keywords_found := [], keywords_missing := [], sentiment := "neutral",
        coherence_score := 0, avg_sentence_length := 0,
        feedback := "Answer is too short. Please provide a more detailed response.",
        suggestions := ["Provide more details and examples", "Explain your thought process"] } :=
  short_answer_short_circuit simpleTokenizer "Why this role?" "too short" [] "general"
    (Or.inr (by with_unfolding_all decide))

/-! ## Claim C10: content score is at most 85 -/

theorem pyRound_two_le_85 (x : ℚ) (h : x ≤ 85) : pyRound 2 x ≤ 85 := by
  rw [pyRound]
  have hb : round (x * 10 ^ 2) ≤ (8500 : ℤ) := by
    calc round (x * 10 ^ 2) = ⌊x * 10 ^ 2 + 1 / 2⌋ := round_eq _
    _ ≤ ⌊(8500 : ℚ) + 1 / 2⌋ := Int.floor_le_floor (by linarith)
    _ = 8500 := by
        rw [Int.floor_eq_iff]
        norm_num
  rw [div_le_iff₀ (by norm_num : (0:ℚ) < 10 ^ 2)]
  calc ((round (x * 10 ^ 2) : ℤ) : ℚ) ≤ ((8500 : ℤ) : ℚ) := by exact_mod_cast hb
  _ = 85 * 10 ^ 2 := by norm_num

theorem calculate_content_score_le_85 (answer : String) (wc sc : ℕ) :
    calculate_content_score answer wc sc ≤ 85 := by
  simp only [calculate_content_score]
  have hA : (if wc < 20 then ((wc : ℚ) / 20) * 20
      else if wc < 50 then 20 + (((wc : ℚ) - 20) / 30) * 10
      else if wc < 100 then 30 + (((wc : ℚ) - 50) / 50) * 10
      else 40) ≤ 40 := by
    split_ifs with h1 h2 h3
    · have hc : (wc : ℚ) < 20 := by exact_mod_cast h1
      nlinarith
    · have hc : (wc : ℚ) < 50 := by exact_mod_cast h2
      nlinarith
    · have hc : (wc : ℚ) < 100 := by exact_mod_cast h3
      nlinarith
    · exact le_refl _
  have hB : (if 3 ≤ sc then (15 : ℚ) else if 2 ≤ sc then 10 else 5) ≤ 15 := by
    split_ifs <;> norm_num
  have hC : (if example_indicators.any (fun ind => strContains answer.toLower ind)
      then (15 : ℚ) else 0) ≤ 15 := by
    split_ifs <;> norm_num
  have hD : (if 5 < avg_word_length answer then (15 : ℚ)
      else if 4 < avg_word_length answer then 10 else 5) ≤ 15 := by
    split_ifs <;> norm_num
  exact le_trans (min_le_left _ _) (by linarith)

/-- C10: on every non-short-circuited answer the content score emitted by
the text scorer is at most 85: the four buckets are bounded by 40 + 15 +
15 + 15, so the min(score, 100) cap never binds. -/
theorem content_score_at_most_85 (tk : Tokenizer) (question answer : String)
    (kws : List String) (qt : String)
    (h : ¬ (answer = "" ∨ answer.trim.length < 10)) :
    (evaluate_answer tk question answer kws qt).content_score ≤ 85 := by
  simp only [evaluate_answer, if_neg h]
  exact pyRound_two_le_85 _ (calculate_content_score_le_85 _ _ _)

/-- C10 witness at a concrete 31-character answer. -/
theorem content_score_at_most_85_witness :
    (evaluate_answer simpleTokenizer "Why tools?" "I enjoy building reliable tools"
      [] "general").content_score ≤ 85 :=
  content_score_at_most_85 simpleTokenizer "Why tools?" "I enjoy building reliable tools"
    [] "general" (by with_unfolding_all decide)

/-! ## Claim C7: standard-mode difficulty mix -/

theorem takeSample_spec : SampleSpec takeSample := by
  intro l k
  exact ⟨List.length_take k l, fun q hq => List.take_subset k l hq⟩

/-- C7 counterexample: for hr interviews at requested difficulty medium
the generator draws 2 questions from the easy pool, not the claimed 1. -/
theorem hr_medium_mix_counterexample :
    ((generate_hr_questions takeSample "medium").countP
        (fun q => decide (q.text ∈ hr_easy_bank.map BankQuestion.text))) = 2 ∧
      ((generate_hr_questions takeSample "medium").countP
        (fun q => decide (q.text ∈ hr_easy_bank.map BankQuestion.text))) ≠ 1 := by
  refine ⟨by decide, by decide⟩

/-- C7 amended: for any sampler meeting the random.sample contract, the
general generator draws 3/2/0, 1/3/1, 0/2/3 (easy/medium/hard) for the
requested difficulties easy/medium/hard, while the hr generator draws
3/2/0, 2/2/1 and 0/2/3; the technical generator selects by skill category
and does not use the difficulty mix. -/
theorem difficulty_mix_draws (sample : List BankQuestion → ℕ → List BankQuestion)
    (h : SampleSpec sample) :
    (generate_general_questions sample "easy"
        = (sample general_easy_bank 3 ++ sample general_medium_bank 2).map
            (fun q => { q with difficulty := some "easy" })
      ∧ (sample general_easy_bank 3).length = 3
      ∧ (sample general_medium_bank 2).length = 2
      ∧ (∀ q ∈ sample general_easy_bank 3, q ∈ general_easy_bank)
      ∧ (∀ q ∈ sample general_medium_bank 2, q ∈ general_medium_bank))
    ∧ (generate_general_questions sample "medium"
        = (sample general_easy_bank 1 ++ sample general_medium_bank 3
            ++ sample general_hard_bank 1).map
            (fun q => { q with difficulty := some "medium" })
      ∧ (sample general_easy_bank 1).length = 1
      ∧ (sample general_medium_bank 3).length = 3
      ∧ (sample general_hard_bank 1).length = 1
      ∧ (∀ q ∈ sample general_easy_bank 1, q ∈ general_easy_bank)
      ∧ (∀ q ∈ sample general_medium_bank 3, q ∈ general_medium_bank)
      ∧ (∀ q ∈ sample general_hard_bank 1, q ∈ general_hard_bank))
    ∧ (generate_general_questions sample "hard"
        = (sample general_medium_bank 2 ++ sample general_hard_bank 3).map
            (fun q => { q with difficulty := some "hard" })
      ∧ (sample general_medium_bank 2).length = 2
      ∧ (sample general_hard_bank 3).length = 3
      ∧ (∀ q ∈ sample general_medium_bank 2, q ∈ general_medium_bank)
      ∧ (∀ q ∈ sample general_hard_bank 3, q ∈ general_hard_bank))
    ∧ (generate_hr_questions sample "easy"
        = (sample hr_easy_bank 3 ++ sample hr_medium_bank 2).map
            (fun q => { q with difficulty := some "easy" })
      ∧ (sample hr_easy_bank 3).length = 3
      ∧ (sample hr_medium_bank 2).length = 2
      ∧ (∀ q ∈ sample hr_easy_bank 3, q ∈ hr_easy_bank)
      ∧ (∀ q ∈ sample hr_medium_bank 2, q ∈ hr_medium_bank))
    ∧ (generate_hr_questions sample "medium"
        = (sample hr_easy_bank 2 ++ sample hr_medium_bank 2 ++ sample hr_hard_bank 1).map
            (fun q => { q with difficulty := some "medium" })
      ∧ (sample hr_easy_bank 2).length = 2
      ∧ (sample hr_medium_bank 2).length = 2
      ∧ (sample hr_hard_bank 1).length = 1
      ∧ (∀ q ∈ sample hr_easy_bank 2, q ∈ hr_easy_bank)
      ∧ (∀ q ∈ sample hr_medium_bank 2, q ∈ hr_medium_bank)
      ∧ (∀ q ∈ sample hr_hard_bank 1, q ∈ hr_hard_bank))
    ∧ (generate_hr_questions sample "hard"
        = (sample hr_medium_bank 2 ++ sample hr_hard_bank 3).map
            (fun q => { q with difficulty := some "hard" })
      ∧ (sample hr_medium_bank 2).length = 2
      ∧ (sample hr_hard_bank 3).length = 3
      ∧ (∀ q ∈ sample hr_medium_bank 2, q ∈ hr_medium_bank)
      ∧ (∀ q ∈ sample hr_hard_bank 3, q ∈ hr_hard_bank)) := by
  have hlen : ∀ l k, (sample l k).length = min k l.length := fun l k => (h l k).1
  have hmem : ∀ l k, ∀ q ∈ sample l k, q ∈ l := fun l k => (h l k).2
  refine ⟨⟨rfl, ?_, ?_, hmem _ _, hmem _ _⟩,
    ⟨rfl, ?_, ?_, ?_, hmem _ _, hmem _ _, hmem _ _⟩,
    ⟨rfl, ?_, ?_, hmem _ _, hmem _ _⟩,
    ⟨rfl, ?_, ?_, hmem _ _, hmem _ _⟩,
    ⟨rfl, ?_, ?_, ?_, hmem _ _, hmem _ _, hmem _ _⟩,
    ⟨rfl, ?_, ?_, hmem _ _, hmem _ _⟩⟩ <;>
    simp [hlen, general_easy_bank, general_medium_bank, general_hard_bank,
      hr_easy_bank, hr_medium_bank, hr_hard_bank]

/-- C7 witness instantiating the sampler contract with a prefix draw. -/
theorem difficulty_mix_draws_witness :
    (takeSample general_easy_bank 3).length = 3 :=
  (difficulty_mix_draws takeSample takeSample_spec).1.2.1

/-- C8 witness: an attentive frame resets the counter and realigns the
attention ratio with the visibility ratio. -/
theorem looking_away_counter_reset_witness :
    (analyze_frame (configure_sensitivity "medium") sessionC8 frameAttentive).1.looking_away_frames = 0 ∧
      (analyze_frame (configure_sensitivity "medium") sessionC8 frameAttentive).1.get_attention_ratio =
        (analyze_frame (configure_sensitivity "medium") sessionC8 frameAttentive).1.get_face_visibility_ratio :=
  (looking_away_counter_reset (configure_sensitivity "medium") sessionC8 frameAttentive).2
    attentiveMesh rfl (by with_unfolding_all decide)

/-! ## Agent helper lemmas -/

theorem update_area_tracking_current_phase (wt st : ℚ) (c : InterviewContext)
    (q : QuestionContext) (e : Evaluation) :
    (update_area_tracking wt st c q e).current_phase = c.current_phase := by
  simp only [update_area_tracking]
  split_ifs <;> rfl

theorem update_area_tracking_user_id (wt st : ℚ) (c : InterviewContext)
    (q : QuestionContext) (e : Evaluation) :
    (update_area_tracking wt st c q e).user_id = c.user_id := by
  simp only [update_area_tracking]
  split_ifs <;> rfl

theorem update_area_tracking_interview_id (wt st : ℚ) (c : InterviewContext)
    (q : QuestionContext) (e : Evaluation) :
    (update_area_tracking wt st c q e).interview_id = c.interview_id := by
  simp only [update_area_tracking]
  split_ifs <;> rfl

theorem update_area_tracking_content (wt st : ℚ) (c : InterviewContext)
    (q : QuestionContext) (e : Evaluation) :
    (update_area_tracking wt st c q e).cumulative_content_scores =
      c.cumulative_content_scores := by
  simp only [update_area_tracking]
  split_ifs <;> rfl

theorem update_area_tracking_relevance (wt st : ℚ) (c : InterviewContext)
    (q : QuestionContext) (e : Evaluation) :
    (update_area_tracking wt st c q e).cumulative_relevance_scores =
      c.cumulative_relevance_scores := by
  simp only [update_area_tracking]
  split_ifs <;> rfl

theorem updateFoundContext_decomp (l : List (ℤ × InterviewContext)) (iid : ℤ)
    (f : InterviewContext → InterviewContext) (c : InterviewContext)
    (h : (l.map Prod.snd).find? (fun x => decide (x.interview_id = iid)) = some c) :
    ∃ l1 k l2, l = l1 ++ (k, c) :: l2
      ∧ updateFoundContext l iid f = l1 ++ (k, f c) :: l2
      ∧ (∀ p ∈ l1, ¬ p.2.interview_id = iid)
      ∧ c.interview_id = iid := by
  induction l with
  | nil => simp at h
  | cons p rest ih =>
    by_cases hp : p.2.interview_id = iid
    · have hd : (decide (p.2.interview_id = iid)) = true := by simpa using hp
      rw [List.map_cons, List.find?_cons, hd] at h
      obtain rfl : p.2 = c := by simpa using h
      refine ⟨[], p.1, rest, by simp, ?_, by simp, hp⟩
      simp [updateFoundContext, hp]
    · have hd : (decide (p.2.interview_id = iid)) = false := by simpa using hp
      rw [List.map_cons, List.find?_cons, hd] at h
      obtain ⟨l1, k, l2, he, hu, hn, hc⟩ := ih h
      refine ⟨p :: l1, k, l2, by simp [he], ?_, ?_, hc⟩
      · simp [updateFoundContext, hp, hu]
      · intro x hx
        rcases List.mem_cons.mp hx with rfl | hx2
        · exact hp
        · exact hn x hx2

theorem get_context_updateFound (st : AgentState) (iid : ℤ)
    (f : InterviewContext → InterviewContext) (c : InterviewContext)
    (hc : st.get_context iid = some c)
    (hf : (f c).interview_id = c.interview_id) :
    AgentState.get_context
      { st with active_interviews := updateFoundContext st.active_interviews iid f } iid
      = some (f c) := by
  obtain ⟨l1, k, l2, he, hu, hn, hcid⟩ := updateFoundContext_decomp st.active_interviews iid f c hc
  show ((updateFoundContext st.active_interviews iid f).map Prod.snd).find?
      (fun x => decide (x.interview_id = iid)) = some (f c)
  rw [hu, List.map_append, List.find?_append]
  have h1 : (l1.map Prod.snd).find? (fun x => decide (x.interview_id = iid)) = none := by
    rw [List.find?_eq_none]
    intro x hx
    obtain ⟨p, hp, rfl⟩ := List.mem_map.mp hx
    simpa using hn p hp
  rw [h1]
  have h2 : (decide ((f c).interview_id = iid)) = true := by
    simp [hf, hcid]
  simp [List.find?_cons, h2]

theorem mem_dictSet (l : List (ℤ × InterviewContext)) (k : ℤ) (v : InterviewContext) :
    ∀ p ∈ dictSet l k v, p = (k, v) ∨ p ∈ l := by
  induction l with
  | nil =>
    intro p hp
    simp [dictSet] at hp
    left
    exact hp
  | cons q rest ih =>
    intro p hp
    by_cases hq : q.1 = k
    · rw [dictSet, if_pos hq] at hp
      rcases List.mem_cons.mp hp with rfl | hp2
      · left; rfl
      · right; exact List.mem_cons_of_mem q hp2
    · rw [dictSet, if_neg hq] at hp
      rcases List.mem_cons.mp hp with h0 | hp2
      · right; rw [h0]; exact List.mem_cons_self _ _
      · rcases ih p hp2 with h1 | h1
        · left; exact h1
        · right; exact List.mem_cons_of_mem q h1

theorem dictSet_dictSet (l : List (ℤ × InterviewContext)) (k : ℤ)
    (v1 v2 : InterviewContext) : dictSet (dictSet l k v1) k v2 = dictSet l k v2 := by
  induction l with
  | nil => simp [dictSet]
  | cons q rest ih =>
    by_cases hq : q.1 = k
    · rw [dictSet, if_pos hq, dictSet, if_pos rfl, dictSet, if_pos hq]
    · rw [dictSet, if_neg hq, dictSet, if_neg hq, ih, dictSet, if_neg hq]

theorem dictGet_dictSet_self (l : List (ℤ × InterviewContext)) (k : ℤ)
    (v : InterviewContext) : dictGet (dictSet l k v) k = some v := by
  induction l with
  | nil => simp [dictSet, dictGet]
  | cons q rest ih =>
    by_cases hq : q.1 = k
    · rw [dictSet, if_pos hq]
      simp [dictGet]
    · rw [dictSet, if_neg hq]
      rw [dictGet, List.find?_cons_of_neg _ (by simpa using hq)]
      exact ih

theorem dictGet_dictSet_ne (l : List (ℤ × InterviewContext)) (k u : ℤ)
    (v : InterviewContext) (h : u ≠ k) : dictGet (dictSet l k v) u = dictGet l u := by
  induction l with
  | nil =>
    have hk : ¬ k = u := fun hh => h hh.symm
    simp [dictSet, dictGet, hk]
  | cons q rest ih =>
    by_cases hq : q.1 = k
    · rw [dictSet, if_pos hq]
      rw [dictGet, List.find?_cons_of_neg _ (by simp [h.symm]), dictGet,
        List.find?_cons_of_neg _ (by simp [hq, h.symm])]
    · rw [dictSet, if_neg hq]
      by_cases hqu : q.1 = u
      · rw [dictGet, List.find?_cons_of_pos _ (by simpa using hqu), dictGet,
          List.find?_cons_of_pos _ (by simpa using hqu)]
      · rw [dictGet, List.find?_cons_of_neg _ (by simpa using hqu), dictGet,
          List.find?_cons_of_neg _ (by simpa using hqu)]
        exact ih

theorem keys_mem_dictSet (l : List (ℤ × InterviewContext)) (k : ℤ) (v : InterviewContext) :
    ∀ p ∈ dictSet l k v, p.1 = k ∨ p.1 ∈ l.map Prod.fst := by
  intro p hp
  rcases mem_dictSet l k v p hp with rfl | h1
  · left; rfl
  · right; exact List.mem_map_of_mem Prod.fst h1

theorem nodup_keys_dictSet (l : List (ℤ × InterviewContext)) (k : ℤ) (v : InterviewContext)
    (h : (l.map Prod.fst).Nodup) : ((dictSet l k v).map Prod.fst).Nodup := by
  induction l with
  | nil => simp [dictSet]
  | cons q rest ih =>
    rw [List.map_cons, List.nodup_cons] at h
    by_cases hq : q.1 = k
    · rw [dictSet, if_pos hq]
      rw [List.map_cons, List.nodup_cons]
      exact ⟨by rw [← hq]; exact h.1, h.2⟩
    · rw [dictSet, if_neg hq]
      rw [List.map_cons, List.nodup_cons]
      constructor
      · intro hmem
        obtain ⟨p, hp, hpk⟩ := List.mem_map.mp hmem
        rcases keys_mem_dictSet rest k v p hp with h1 | h1
        · exact hq (hpk ▸ h1)
        · exact h.1 (hpk ▸ h1)
      · exact ih h.2

theorem countP_keys_dictSet (l : List (ℤ × InterviewContext)) (k : ℤ) (v : InterviewContext)
    (h : (l.map Prod.fst).Nodup) :
    (dictSet l k v).countP (fun p => decide (p.1 = k)) = 1 := by
  induction l with
  | nil => simp [dictSet]
  | cons q rest ih =>
    rw [List.map_cons, List.nodup_cons] at h
    by_cases hq : q.1 = k
    · rw [dictSet, if_pos hq]
      rw [List.countP_cons]
      have hzero : rest.countP (fun p => decide (p.1 = k)) = 0 := by
        rw [List.countP_eq_zero]
        intro p hp
        simp only [decide_eq_true_eq]
        intro hpk
        exact h.1 (List.mem_map.mpr ⟨p, hp, by rw [hpk, ← hq]⟩)
      simp [hzero]
    · rw [dictSet, if_neg hq]
      rw [List.countP_cons, ih h.2]
      simp [hq]

theorem update_area_tracking_questions (wt st : ℚ) (c : InterviewContext)
    (q : QuestionContext) (e : Evaluation) :
    (update_area_tracking wt st c q e).questions = c.questions := by
  simp only [update_area_tracking]
  split_ifs <;> rfl

theorem updateFoundQuestion_decomp (l : List QuestionContext) (qid : ℤ)
    (f : QuestionContext → QuestionContext) (q : QuestionContext)
    (h : l.find? (fun x => decide (x.order_number = qid ∨ x.question_id = qid)) = some q) :
    ∃ l1 l2, l = l1 ++ q :: l2 ∧ updateFoundQuestion l qid f = l1 ++ f q :: l2 := by
  induction l with
  | nil => simp at h
  | cons x rest ih =>
    by_cases hx : x.order_number = qid ∨ x.question_id = qid
    · have hd : (decide (x.order_number = qid ∨ x.question_id = qid)) = true := by simpa using hx
      rw [List.find?_cons, hd] at h
      obtain rfl : x = q := by simpa using h
      exact ⟨[], rest, by simp, by simp [updateFoundQuestion, hx]⟩
    · have hd : (decide (x.order_number = qid ∨ x.question_id = qid)) = false := by simpa using hx
      rw [List.find?_cons, hd] at h
      obtain ⟨l1, l2, he, hu⟩ := ih h
      exact ⟨x :: l1, l2, by simp [he], by simp [updateFoundQuestion, hx, hu]⟩

/-! ## Claim C1: at-most-once evaluation -/

/-- C1 counterexample: after interview 1 was started and question order 1
answered once, a second submission of the same order succeeds (no
AlreadyAnswered error exists) and appends a second entry to the cumulative
content score sequence. -/
theorem duplicate_submit_counterexample :
    (InterviewAgent.process_answer simpleTokenizer stAfterFirst 1 1 "too short").2.isOk = true
    ∧ ((InterviewAgent.process_answer simpleTokenizer stAfterFirst 1 1 "too short").1.get_context 1).map
        (fun c => c.cumulative_content_scores.length) = some 2 := by
  refine ⟨by with_unfolding_all decide, by with_unfolding_all decide⟩

/-- C1 amended: a submission for a question whose answer_received flag is
already set does not fail: the agent re-evaluates the answer, returns the
fresh evaluation, overwrites the stored one, and appends to the cumulative
content and relevance score sequences a second time. -/
theorem resubmission_overwrites (tk : Tokenizer) (st : AgentState) (iid qid : ℤ)
    (ans : String) (c : InterviewContext) (q : QuestionContext)
    (hc : st.get_context iid = some c)
    (hq : c.questions.find?
      (fun x => decide (x.order_number = qid ∨ x.question_id = qid)) = some q)
    (hanswered : q.answer_received = true) :
    (∃ r : ProcessResult, (InterviewAgent.process_answer tk st iid qid ans).2 = Except.ok r
        ∧ r.evaluation = evaluate_answer tk q.question_text ans q.expected_keywords q.question_type)
    ∧ (∃ c2 : InterviewContext,
        (InterviewAgent.process_answer tk st iid qid ans).1.get_context iid = some c2
          ∧ c2.cumulative_content_scores = c.cumulative_content_scores
              ++ [(evaluate_answer tk q.question_text ans q.expected_keywords q.question_type).content_score]
          ∧ c2.cumulative_relevance_scores = c.cumulative_relevance_scores
              ++ [(evaluate_answer tk q.question_text ans q.expected_keywords q.question_type).relevance_score]
          ∧ ∃ q2 ∈ c2.questions, q2.answer_received = true ∧ q2.answer_text = some ans
              ∧ q2.evaluation_result
                = some (evaluate_answer tk q.question_text ans q.expected_keywords q.question_type)) := by
  constructor
  · simp only [InterviewAgent.process_answer, hc, hq]
    exact ⟨_, rfl, rfl⟩
  · refine ⟨process_mutation st.weak_area_threshold st.strong_area_threshold qid ans q
      (evaluate_answer tk q.question_text ans q.expected_keywords q.question_type) c, ?_, ?_, ?_, ?_⟩
    · show AgentState.get_context (InterviewAgent.process_answer tk st iid qid ans).1 iid = _
      simp only [InterviewAgent.process_answer, hc, hq]
      exact get_context_updateFound st iid _ c hc
        (by simp [process_mutation, update_area_tracking_interview_id])
    · simp [process_mutation, update_area_tracking_content]
    · simp [process_mutation, update_area_tracking_relevance]
    · obtain ⟨l1, l2, he, hu⟩ := updateFoundQuestion_decomp c.questions qid
        (answer_update ans (evaluate_answer tk q.question_text ans
          q.expected_keywords q.question_type)) q hq
      refine ⟨answer_update ans (evaluate_answer tk q.question_text ans
        q.expected_keywords q.question_type) q, ?_, rfl, rfl, rfl⟩
      have hqs : (process_mutation st.weak_area_threshold st.strong_area_threshold qid ans q
          (evaluate_answer tk q.question_text ans q.expected_keywords q.question_type) c).questions
          = updateFoundQuestion c.questions qid
            (answer_update ans (evaluate_answer tk q.question_text ans
              q.expected_keywords q.question_type)) := by
        simp [process_mutation, update_area_tracking_questions]
      rw [hqs, hu]
      exact List.mem_append_right _ (List.mem_cons_self _ _)

/-- C1 witness: resubmitting the already-answered question of stAnswered
is accepted and returns the fresh evaluation. -/
theorem resubmission_overwrites_witness :
    ∃ r : ProcessResult,
      (InterviewAgent.process_answer simpleTokenizer stAnswered 1 1 "too short").2 = Except.ok r
        ∧ r.evaluation = evaluate_answer simpleTokenizer "Q" "too short" [] "general" :=
  (resubmission_overwrites simpleTokenizer stAnswered 1 1 "too short" ctxAnswered qAnswered
    rfl rfl rfl).1

/-! ## Claim C2: monotone phases and illegal operations -/

/-- C2 counterexample: completing interview 1 succeeds, after which a
submission to the same interview fails with the no-active-interview error
(the registry entry is gone), not with any InvalidTransition error, which
does not exist in the agent. -/
theorem submit_after_complete_counterexample :
    (InterviewAgent.complete_interview stStart 1).2.isOk = true ∧
      (InterviewAgent.process_answer simpleTokenizer stAfterComplete 1 1 "too short").2
        = Except.error (AgentError.no_active_interview 1) := by
  refine ⟨by with_unfolding_all decide, by with_unfolding_all rfl⟩

/-- C2 amended: on every registry satisfying the resting invariant (each
context registered under its own user id and resting in answer_collection),
every operation preserves the invariant and the sequence of phase values
the touched context walks through is monotone in the phase order; an
operation on a completed interview does not find a context and fails with
no_active_interview (the agent has no InvalidTransition error). -/
theorem phase_monotone (tk : Tokenizer) (st : AgentState) (op : AgentOp)
    (h : AgentInv st) :
    AgentInv (apply_op tk st op)
    ∧ List.Chain' (fun a b : AgentPhase => a.idx ≤ b.idx) (op_phase_trace st op) := by
  constructor
  · cases op with
    | start iid uid it im dl qd =>
      intro p hp
      simp only [apply_op, InterviewAgent.start_interview, AgentState.create_context] at hp
      rw [dictSet_dictSet] at hp
      rcases mem_dictSet _ _ _ p hp with h0 | hm
      · rw [h0]
        exact ⟨rfl, rfl⟩
      · exact h p hm
    | submit iid qid ans =>
      rcases hgc : st.get_context iid with _ | c
      · have hst : apply_op tk st (AgentOp.submit iid qid ans) = st := by
          simp [apply_op, InterviewAgent.process_answer, hgc]
        rw [hst]
        exact h
      · rcases hfq : c.questions.find?
            (fun x => decide (x.order_number = qid ∨ x.question_id = qid)) with _ | q
        · have hst : apply_op tk st (AgentOp.submit iid qid ans) = st := by
            simp only [apply_op, InterviewAgent.process_answer, hgc, hfq]
          rw [hst]
          exact h
        · intro p hp
          simp only [apply_op, InterviewAgent.process_answer, hgc, hfq] at hp
          obtain ⟨l1, k, l2, he, hu, hn, hcid⟩ :=
            updateFoundContext_decomp st.active_interviews iid _ c hgc
          rw [hu] at hp
          rcases List.mem_append.mp hp with h1 | h2
          · exact h p (by rw [he]; exact List.mem_append_left _ h1)
          · rcases List.mem_cons.mp h2 with h0 | h3
            · have hkc : (k, c) ∈ st.active_interviews := by
                rw [he]
                exact List.mem_append_right _ (List.mem_cons_self _ _)
              obtain ⟨hph, hui⟩ := h _ hkc
              have hph2 : c.current_phase = AgentPhase.answer_collection := hph
              have hui2 : c.user_id = k := hui
              rw [h0]
              constructor
              · simp [process_mutation, update_area_tracking_current_phase, hph2]
              · simp [process_mutation, update_area_tracking_user_id, hui2]
            · exact h p (by rw [he]; exact List.mem_append_right _ (List.mem_cons_of_mem _ h3))
    | complete iid =>
      rcases hgc : st.get_context iid with _ | c
      · have hst : apply_op tk st (AgentOp.complete iid) = st := by
          simp [apply_op, InterviewAgent.complete_interview, hgc]
        rw [hst]
        exact h
      · intro p hp
        simp only [apply_op, InterviewAgent.complete_interview, hgc,
          AgentState.remove_context, dictDelete] at hp
        obtain ⟨hpm, hpk⟩ := List.mem_filter.mp hp
        obtain ⟨l1, k, l2, he, hu, hn, hcid⟩ :=
          updateFoundContext_decomp st.active_interviews iid _ c hgc
        rw [hu] at hpm
        rcases List.mem_append.mp hpm with h1 | h2
        · exact h p (by rw [he]; exact List.mem_append_left _ h1)
        · rcases List.mem_cons.mp h2 with h0 | h3
          · exfalso
            have hkc : (k, c) ∈ st.active_interviews := by
              rw [he]
              exact List.mem_append_right _ (List.mem_cons_self _ _)
            have hui : c.user_id = k := (h _ hkc).2
            rw [h0] at hpk
            simp only [decide_eq_true_eq] at hpk
            exact hpk hui.symm
          · exact h p (by rw [he]; exact List.mem_append_right _ (List.mem_cons_of_mem _ h3))
  · cases op with
    | start iid uid it im dl qd =>
      simp [op_phase_trace, List.chain'_cons, AgentPhase.idx]
    | submit iid qid ans =>
      rcases hgc : st.get_context iid with _ | c <;> simp [op_phase_trace, hgc]
    | complete iid =>
      rcases hgc : st.get_context iid with _ | c
      · simp [op_phase_trace, hgc]
      · have hcm : c ∈ st.active_interviews.map Prod.snd := List.mem_of_find?_eq_some hgc
        obtain ⟨p, hpmem, hpc⟩ := List.mem_map.mp hcm
        have hph : c.current_phase = AgentPhase.answer_collection := by
          have h1 : p.2.current_phase = AgentPhase.answer_collection := (h p hpmem).1
          rw [← hpc]
          exact h1
        simp [op_phase_trace, hgc, List.chain'_cons, AgentPhase.idx, hph]

/-- C2 witness: the invariant and the monotone trace hold for starting an
interview on the empty registry. -/
theorem phase_monotone_witness :
    AgentInv (apply_op simpleTokenizer {}
      (AgentOp.start 1 1 "general" "standard" (some "easy") [qdataDemo]))
    ∧ List.Chain' (fun a b : AgentPhase => a.idx ≤ b.idx)
        (op_phase_trace {} (AgentOp.start 1 1 "general" "standard" (some "easy") [qdataDemo])) :=
  phase_monotone simpleTokenizer {} (AgentOp.start 1 1 "general" "standard" (some "easy") [qdataDemo])
    (by intro p hp; simp at hp)

/-! ## Claim C3: overall score law -/

/-- C3 counterexample: with one evaluation of content 33.33 and relevance
0 (and no speech or emotion channels) the stored overall score is the
2-decimal rounding 50, while the claim formula yields 49.9992: the claimed
exact equality fails. -/
theorem overall_rounding_counterexample :
    (calculate_final_scores ctxC3 [evalC3]).overall_score = 50 ∧
      claim_overall ctxC3 [evalC3] = 62499/1250 ∧
      (calculate_final_scores ctxC3 [evalC3]).overall_score ≠ claim_overall ctxC3 [evalC3] := by
  have h1 : (calculate_final_scores ctxC3 [evalC3]).overall_score = 50 := by
    norm_num [calculate_final_scores, InterviewContext.get_average_score, pyRound,
      round_eq, evalC3, ctxC3]
  have h2 : claim_overall ctxC3 [evalC3] = 62499/1250 := by
    norm_num [claim_overall, evalC3, ctxC3]
  refine ⟨h1, h2, ?_⟩
  rw [h1, h2]
  norm_num

/-- C3 amended: for a non-empty evaluation list, and whenever no recorded
channel averages to exactly 0 (the Python idiom avg or 70 also remaps a
recorded average of 0 to 70), the final overall score equals the claimed
formula rounded to 2 decimals. -/
theorem overall_score_law (c : InterviewContext) (evaluations : List Evaluation)
    (hne : evaluations ≠ [])
    (hcl : c.cumulative_clarity_scores = [] ∨ c.get_average_score "clarity" ≠ 0)
    (hfl : c.cumulative_fluency_scores = [] ∨ c.get_average_score "fluency" ≠ 0)
    (hcf : c.cumulative_confidence_scores = [] ∨ c.get_average_score "confidence" ≠ 0) :
    (calculate_final_scores c evaluations).overall_score
      = pyRound 2 (claim_overall c evaluations) := by
  have hclv : (if c.get_average_score "clarity" = 0 then (70:ℚ)
        else c.get_average_score "clarity")
      = (if c.cumulative_clarity_scores = [] then (70:ℚ)
        else c.cumulative_clarity_scores.sum / (c.cumulative_clarity_scores.length : ℚ)) := by
    rcases hcl with he | hne2
    · have h0 : c.get_average_score "clarity" = 0 := by
        simp [InterviewContext.get_average_score, he]
      rw [if_pos h0, if_pos he]
    · have hl : ¬ c.cumulative_clarity_scores = [] := by
        intro hh
        exact hne2 (by simp [InterviewContext.get_average_score, hh])
      rw [if_neg hne2, if_neg hl]
      simp [InterviewContext.get_average_score, hl]
  have hflv : (if c.get_average_score "fluency" = 0 then (70:ℚ)
        else c.get_average_score "fluency")
      = (if c.cumulative_fluency_scores = [] then (70:ℚ)
        else c.cumulative_fluency_scores.sum / (c.cumulative_fluency_scores.length : ℚ)) := by
    rcases hfl with he | hne2
    · have h0 : c.get_average_score "fluency" = 0 := by
        simp [InterviewContext.get_average_score, he]
      rw [if_pos h0, if_pos he]
    · have hl : ¬ c.cumulative_fluency_scores = [] := by
        intro hh
        exact hne2 (by simp [InterviewContext.get_average_score, hh])
      rw [if_neg hne2, if_neg hl]
      simp [InterviewContext.get_average_score, hl]
  have hcfv : (if c.get_average_score "confidence" = 0 then (70:ℚ)
        else c.get_average_score "confidence")
      = (if c.cumulative_confidence_scores = [] then (70:ℚ)
        else c.cumulative_confidence_scores.sum / (c.cumulative_confidence_scores.length : ℚ)) := by
    rcases hcf with he | hne2
    · have h0 : c.get_average_score "confidence" = 0 := by
        simp [InterviewContext.get_average_score, he]
      rw [if_pos h0, if_pos he]
    · have hl : ¬ c.cumulative_confidence_scores = [] := by
        intro hh
        exact hne2 (by simp [InterviewContext.get_average_score, hh])
      rw [if_neg hne2, if_neg hl]
      simp [InterviewContext.get_average_score, hl]
  simp only [calculate_final_scores, if_neg hne]
  congr 1
  simp only [claim_overall]
  rw [hclv, hflv, hcfv]
  ring

/-- C3 witness at the concrete context and single evaluation. -/
theorem overall_score_law_witness :
    (calculate_final_scores ctxC3 [evalC3]).overall_score
      = pyRound 2 (claim_overall ctxC3 [evalC3]) :=
  overall_score_law ctxC3 [evalC3] (by simp) (Or.inl rfl) (Or.inl rfl) (Or.inl rfl)

/-! ## Claim C9: registry keyed by user id -/

/-- C9: create_context registers the fresh context under the user id,
silently replacing any existing one and leaving other users untouched;
with unique keys the user keeps exactly one registered context;
get_context resolves an interview id by scanning the registered contexts;
complete_interview deregisters by the found context's user id, leaving no
entry under that key. -/
theorem registry_keyed_by_user (st : AgentState) (new_iid new_uid : ℤ)
    (it im dl : String) (iid : ℤ) (c : InterviewContext)
    (hnodup : (st.active_interviews.map Prod.fst).Nodup)
    (hfound : st.get_context iid = some c) :
    dictGet (st.create_context new_iid new_uid it im dl).1.active_interviews new_uid
        = some (st.create_context new_iid new_uid it im dl).2
    ∧ (∀ u, u ≠ new_uid →
        dictGet (st.create_context new_iid new_uid it im dl).1.active_interviews u
          = dictGet st.active_interviews u)
    ∧ ((st.create_context new_iid new_uid it im dl).1.active_interviews.map Prod.fst).Nodup
    ∧ (st.create_context new_iid new_uid it im dl).1.active_interviews.countP
        (fun p => decide (p.1 = new_uid)) = 1
    ∧ st.get_context iid = (st.active_interviews.map Prod.snd).find?
        (fun x => decide (x.interview_id = iid))
    ∧ ∀ p ∈ (InterviewAgent.complete_interview st iid).1.active_interviews,
        p.1 ≠ c.user_id := by
  refine ⟨dictGet_dictSet_self _ _ _, ?_, nodup_keys_dictSet _ _ _ hnodup,
    countP_keys_dictSet _ _ _ hnodup, rfl, ?_⟩
  · intro u hu
    exact dictGet_dictSet_ne _ _ _ _ hu
  · intro p hp
    simp only [InterviewAgent.complete_interview, hfound,
      AgentState.remove_context, dictDelete] at hp
    obtain ⟨hpm, hpk⟩ := List.mem_filter.mp hp
    simpa using hpk

/-- C9 witness on a registry with one in-flight interview: creating a new
context for the same user replaces the old one. -/
theorem registry_keyed_by_user_witness :
    dictGet (stC9.create_context 12 4 "general" "standard" "easy").1.active_interviews 4
      = some (stC9.create_context 12 4 "general" "standard" "easy").2 :=
  (registry_keyed_by_user stC9 12 4 "general" "standard" "easy" 11 ctxC9
    (by decide) rfl).1

end MockInterview
